import Mathlib

/-!
Shallow embedding of the SlideGen content pipeline
(`src/app/generate/actions.ts` of TariqKichawele/SlideGen).

Modelling conventions:
* A JavaScript value that may be `null`/`undefined` is an `Option`.
* A `throw new Error msg` is `Except.error msg`; the success path is
  `Except.ok`.  An underlying failure of an external call (network error,
  malformed response, rejected promise) is an `Except Unit` argument or an
  oracle returning `Except.error ()`; the surrounding `try/catch` of each
  component turns it into that component's fixed error message.
* The OpenAI chat-completion endpoint is an oracle
  `ChatRequest → Except Unit (Option payload)`: `Except.error ()` is a
  transport failure, `Except.ok none` models
  `completion.choices[0].message?.parsed` being absent, `Except.ok (some p)`
  a parsed structured payload.
* JavaScript numbers that occur in the slide geometry are rationals.
-/

/-- `VideoMetaData` from `actions.ts`: `length : number | null`,
`subtitlesURL : string | null`. -/
structure VideoMetaData where
  length : Option Int
  subtitlesURL : Option String
deriving DecidableEq, Repr

/-- One entry of `res.data.subtitles.subtitles` in the video-info response:
`{ languageCode, url }`. -/
structure SubtitleTrackEntry where
  languageCode : String
  url : String
deriving DecidableEq, Repr

/-- The part of the video-info response read by `GetVideoLengthAndSubtitles`:
`res.data.lengthSeconds` (absent/null modelled as `none`) and the list
`res.data.subtitles.subtitles`. -/
structure VideoInfoData where
  lengthSeconds : Option Int
  subtitles : List SubtitleTrackEntry
deriving DecidableEq, Repr

/-- `GetVideoLengthAndSubtitles` from `actions.ts`.  The argument is the
outcome of `axios.request`: `Except.error ()` models any transport or shape
failure thrown inside the `try` block.  On a response, `length` is
`res.data.lengthSeconds` and `subtitlesURL` is
`find(languageCode === "en")?.url || null` — note `|| null` maps an empty
url string to `null` (the empty string is falsy). -/
def GetVideoLengthAndSubtitles (response : Except Unit VideoInfoData) :
    Except String VideoMetaData :=
  match response with
  | .error _ => .error "Failed to get video length and subtitles"
  | .ok d =>
      .ok
        { length := d.lengthSeconds
          subtitlesURL :=
            match (d.subtitles.find? fun s => s.languageCode == "en").map
                SubtitleTrackEntry.url with
            | none => none
            | some u => if u = "" then none else some u }

/-- The result `{ fileName, filePath }` of the deck renderer. -/
structure PptxFileResult where
  fileName : String
  filePath : String
deriving DecidableEq, Repr

/-- The pipeline stages described by the spec; used to record which external
operations an entry point performs. -/
inductive PipelineStep where
  | fetchMetadata
  | parseSubtitles
  | generateTitleAndDescription
  | generateSlideObjects
  | renderDeck
deriving DecidableEq, Repr

/-- `CreatePowerpoint` from `actions.ts`: an exported async arrow function
with an empty body.  It performs no operation (empty trace of pipeline
steps) and returns `undefined` (`none`). -/
def CreatePowerpoint (_videoId : String) :
    List PipelineStep × Option PptxFileResult :=
  ([], none)

/-- **C1** (claim as stated, refuted at an explicit input): for the
video-info response whose only subtitle entry is `{languageCode := "en",
url := ""}`, the claim predicts `subtitlesURL = some ""` (the url of the
first English entry), but the code's `?.url || null` yields `none`, while
`length` is still the response's `lengthSeconds`. -/
theorem GetVideoLengthAndSubtitles_empty_url_counterexample :
    GetVideoLengthAndSubtitles
        (.ok ⟨some 120, [⟨"en", ""⟩]⟩) =
      .ok ⟨some 120, none⟩ ∧
    (([⟨"en", ""⟩] : List SubtitleTrackEntry).find?
        (fun s => s.languageCode == "en")).map SubtitleTrackEntry.url =
      some "" ∧
    GetVideoLengthAndSubtitles (.ok ⟨some 120, [⟨"en", ""⟩]⟩) ≠
      .ok ⟨some 120, some ""⟩ := by
  refine ⟨rfl, rfl, ?_⟩
  intro h
  simp [GetVideoLengthAndSubtitles] at h

/-- `SubtitleItem` from `actions.ts`: `{ text : string }`. -/
structure SubtitleItem where
  text : String
deriving DecidableEq, Repr

/-- An element node of the DOM produced by `DOMParser.parseFromString`:
a tag name, the node's `textContent` (absent modelled as `none`), and its
child elements in document order. -/
inductive XMLNode where
  | elem (tagName : String) (textContent : Option String)
      (children : List XMLNode)

/-- The tag name of an element. -/
def XMLNode.tagName : XMLNode → String
  | .elem t _ _ => t

/-- The `textContent` of an element. -/
def XMLNode.textContent : XMLNode → Option String
  | .elem _ tc _ => tc

/-- `getElementsByTagName` over a forest: all elements whose tag name is
`tag`, in document (pre-order, depth-first) order. -/
def collectTag (tag : String) : List XMLNode → List XMLNode
  | [] => []
  | XMLNode.elem t tc cs :: rest =>
      (if t = tag then [XMLNode.elem t tc cs] else []) ++
        collectTag tag cs ++ collectTag tag rest

/-- The number of elements named `tag` in a forest, counted directly. -/
def countTag (tag : String) : List XMLNode → Nat
  | [] => 0
  | XMLNode.elem t _ cs :: rest =>
      (if t = tag then 1 else 0) + countTag tag cs + countTag tag rest

/-- `doc.getElementsByTagName(tag)` for a document with root element
`doc`. -/
def getElementsByTagName (tag : String) (doc : XMLNode) : List XMLNode :=
  collectTag tag [doc]

/-- `parseXMLContent` from `actions.ts`.  The argument is the outcome of
`axios.get` plus `DOMParser` on the response body: `Except.error ()` is any
download or parse failure thrown inside the `try` block.  On a document,
the function maps every element named `text` to
`{ text: element.textContent || "" }`.  The declared return type is
`SubtitleItem[] | null`, hence the inner `Option`. -/
def parseXMLContent (fetched : Except Unit XMLNode) :
    Except String (Option (List SubtitleItem)) :=
  match fetched with
  | .error _ => .error "Failed to parse XML content"
  | .ok doc =>
      .ok (some ((getElementsByTagName "text" doc).map
        fun element => { text := element.textContent.getD "" }))

theorem collectTag_length (tag : String) :
    ∀ l : List XMLNode, (collectTag tag l).length = countTag tag l := by
  intro l
  induction l using collectTag.induct tag with
  | case1 => simp [collectTag, countTag]
  | case2 t tc cs rest ih1 ih2 =>
      simp only [collectTag, countTag, List.length_append, ih1, ih2]
      by_cases h : t = tag <;> simp [h, Nat.add_assoc]

/-- **C1 (amended)**: for every video-info response, the returned
`VideoMetaData` has `length` equal to the response's `lengthSeconds`
(`none` when absent), and `subtitlesURL` equal to the url of the first
subtitle entry with `languageCode = "en"` when that url is nonempty, and
`none` when no English entry exists or when the first English entry's url
is the empty string (the code's `?.url || null` treats the empty string as
falsy). -/
theorem GetVideoLengthAndSubtitles_ok (d : VideoInfoData) :
    ∃ m, GetVideoLengthAndSubtitles (.ok d) = .ok m ∧
      m.length = d.lengthSeconds ∧
      ((d.subtitles.find? fun s => s.languageCode == "en") = none →
        m.subtitlesURL = none) ∧
      ∀ e, (d.subtitles.find? fun s => s.languageCode == "en") = some e →
        m.subtitlesURL = if e.url = "" then none else some e.url := by
  refine ⟨_, rfl, rfl, ?_, ?_⟩
  · intro h
    simp [GetVideoLengthAndSubtitles, h]
  · intro e h
    simp [GetVideoLengthAndSubtitles, h]

/-- Witness for `GetVideoLengthAndSubtitles_ok` at a concrete response with
a non-first English entry carrying a nonempty url. -/
theorem GetVideoLengthAndSubtitles_ok_witness :
    GetVideoLengthAndSubtitles
        (.ok ⟨some 300, [⟨"fr", "uf"⟩, ⟨"en", "ue"⟩]⟩) =
      .ok ⟨some 300, some "ue"⟩ := by
  obtain ⟨m, hm, hlen, _, hsome⟩ :=
    GetVideoLengthAndSubtitles_ok ⟨some 300, [⟨"fr", "uf"⟩, ⟨"en", "ue"⟩]⟩
  have hurl : m.subtitlesURL = some "ue" := by
    rw [hsome ⟨"en", "ue"⟩ (by decide)]
    decide
  rw [hm]
  cases m
  simp_all

/-- **C2**: for every subtitle document, `parseXMLContent` succeeds with a
list of exactly as many `SubtitleItem`s as there are elements named `text`
in the document (counted independently of the traversal), in document
order, the i-th item's text being the i-th such element's text content and
`""` when that content is absent. -/
theorem parseXMLContent_all_text_elements (doc : XMLNode) :
    ∃ items, parseXMLContent (.ok doc) = .ok (some items) ∧
      items.length = countTag "text" [doc] ∧
      ∀ i : Nat, items[i]? = ((getElementsByTagName "text" doc)[i]?).map
        fun element => ⟨element.textContent.getD ""⟩ := by
  refine ⟨_, rfl, ?_, ?_⟩
  · simpa [parseXMLContent, getElementsByTagName] using
      collectTag_length "text" [doc]
  · intro i
    simp

/-- **C3**: a subtitle document that parses but has zero elements named
`text` makes `parseXMLContent` succeed with the empty list — not `null`
(`none`) and not an error. -/
theorem parseXMLContent_zero_text_elements (doc : XMLNode)
    (h : countTag "text" [doc] = 0) :
    parseXMLContent (.ok doc) = .ok (some []) := by
  have hlen := collectTag_length "text" [doc]
  rw [h] at hlen
  have hnil : collectTag "text" [doc] = [] :=
    List.eq_nil_of_length_eq_zero hlen
  simp [parseXMLContent, getElementsByTagName, hnil]

/-- Witness for `parseXMLContent_zero_text_elements` on a concrete document
with no `text` element. -/
theorem parseXMLContent_zero_text_elements_witness :
    countTag "text" [XMLNode.elem "transcript" none []] = 0 ∧
    parseXMLContent (.ok (XMLNode.elem "transcript" none [])) =
      .ok (some []) :=
  ⟨by simp [countTag], parseXMLContent_zero_text_elements
    (XMLNode.elem "transcript" none []) (by simp [countTag])⟩

/-- A chat message `{ role, content }` sent to the completion endpoint. -/
structure ChatMessage where
  role : String
  content : String
deriving DecidableEq, Repr

/-- A chat-completion request as built by `actions.ts`: the message list,
the model identifier, and the name passed to `zodResponseFormat`. -/
structure ChatRequest where
  messages : List ChatMessage
  model : String
  responseFormatName : String
deriving DecidableEq, Repr

/-- `TitleDescription` (`z.infer` of `TitleAndDescriptionSchema`):
`{ title : string, description : string }`. -/
structure TitleDescription where
  title : String
  description : String
deriving DecidableEq, Repr

/-- `SlideContent` from `actions.ts`:
`{ title : string, content : string[] }`. -/
structure SlideContent where
  title : String
  content : List String
deriving DecidableEq, Repr

/-- The payload of `arrayOfObjectsSchema`:
`{ arrayOfObjects : SlideContent[] }`. -/
structure ArrayOfObjectsPayload where
  arrayOfObjects : List SlideContent
deriving DecidableEq, Repr

/-- The `promptTemplate` template literal of `CreateTitleAndDescription`,
with the transcript interpolated at its placeholder. -/
def titlePrompt (transcript : String) : String :=
  "\n        Generate a title and description for this Powerpoint presentation based on the following transcript. \n        Requirements: \n        - Title should be fewer than 20 words \n        - description should be fewer than 35 words \n        - Focus on content rather than speaker \n        - make sure the output is in English \n\n        Transcript: "
    ++ transcript ++ "\n    "

/-- The request `CreateTitleAndDescription` sends to
`openai.beta.chat.completions.parse`. -/
def titleRequest (transcript : String) : ChatRequest :=
  { messages :=
      [{ role := "system"
         content := "You are a helpful assistant designed to generate titles and descriptions" },
       { role := "user", content := titlePrompt transcript }]
    model := "gpt-4o-mini"
    responseFormatName := "title" }

/-- `CreateTitleAndDescription` from `actions.ts`.  `llm` is the completion
endpoint; `Except.error ()` is a transport failure and `Except.ok none`
a response whose `choices[0].message?.parsed` is absent — both the inner
`throw` and the `catch` produce the same message. -/
def CreateTitleAndDescription
    (llm : ChatRequest → Except Unit (Option TitleDescription))
    (transcript : String) : Except String TitleDescription :=
  match llm (titleRequest transcript) with
  | .error _ => .error "Failed to generate title and description"
  | .ok none => .error "Failed to generate title and description"
  | .ok (some res) => .ok res

/-- The `promptTemplate` template literal of `ConvertToObjects`, with the
slide count and the text interpolated at their placeholders. -/
def convertPrompt (text : String) (slideCount : Nat) : String :=
  "\n        Condense and tidy up the following text to make it suitable for a Powerpoint presentation. Transform it \n        into an array of objects. I have provided the schema for the output. Make sure that the content array has between 3 and 4 items, \n        and each content string should be between 160 and 170 characters. You can add to the content based on the transcript.. \n        The length of the array should be "
    ++ toString slideCount
    ++ ".\n        The text to process is as follows: " ++ text ++ "\n    "

/-- The request `ConvertToObjects` sends to
`openai.beta.chat.completions.parse`. -/
def convertRequest (text : String) (slideCount : Nat) : ChatRequest :=
  { messages :=
      [{ role := "system"
         content := "You are a helpful assistant designed to convert text into objects. You output JSON based on a schema I provide." },
       { role := "user", content := convertPrompt text slideCount }]
    model := "gpt-4o-mini"
    responseFormatName := "arrayOfObjects" }

/-- `ConvertToObjects` from `actions.ts`, with the slide count explicit.
On a parsed payload it returns `res.arrayOfObjects`; a transport failure or
an absent parsed payload yields the one generic message.  The declared
return type is `SlideContent[] | null`, hence the inner `Option`. -/
def ConvertToObjects
    (llm : ChatRequest → Except Unit (Option ArrayOfObjectsPayload))
    (text : String) (slideCount : Nat) :
    Except String (Option (List SlideContent)) :=
  match llm (convertRequest text slideCount) with
  | .error _ => .error "Failed to convert text to objects"
  | .ok none => .error "Failed to convert text to objects"
  | .ok (some res) => .ok (some res.arrayOfObjects)

/-- `ConvertToObjects` called without its second argument: the source
declares `slideCount = 10` as the default parameter value. -/
def ConvertToObjectsDefault
    (llm : ChatRequest → Except Unit (Option ArrayOfObjectsPayload))
    (text : String) : Except String (Option (List SlideContent)) :=
  ConvertToObjects llm text 10

/-- A string built as `a ++ k ++ b ++ c ++ d` contains `k` between a prefix
and a suffix. -/
theorem append_contains_mid (a k b c d : String) :
    ∃ pre post, a ++ k ++ b ++ c ++ d = pre ++ k ++ post :=
  ⟨a, b ++ c ++ d, by simp [String.append_assoc]⟩

/-- **C5**: for every transcript and every completion whose parsed payload
conforms to the `TitleDescription` schema, `CreateTitleAndDescription`
returns that exact object unmodified; when the completion holds no parsed
structured payload, it signals the generic generation-failed error. -/
theorem CreateTitleAndDescription_passthrough
    (llm : ChatRequest → Except Unit (Option TitleDescription))
    (transcript : String) (td : TitleDescription) :
    (llm (titleRequest transcript) = .ok (some td) →
      CreateTitleAndDescription llm transcript = .ok td) ∧
    (llm (titleRequest transcript) = .ok none →
      CreateTitleAndDescription llm transcript =
        .error "Failed to generate title and description") := by
  constructor <;> intro h <;> simp [CreateTitleAndDescription, h]

/-- Witness for `CreateTitleAndDescription_passthrough` at a concrete
transcript, payload and oracle. -/
theorem CreateTitleAndDescription_passthrough_witness :
    CreateTitleAndDescription (fun _ => .ok (some ⟨"T", "D"⟩)) "hello" =
      .ok ⟨"T", "D"⟩ ∧
    CreateTitleAndDescription (fun _ => .ok none) "hello" =
      .error "Failed to generate title and description" :=
  ⟨(CreateTitleAndDescription_passthrough
      (fun _ => .ok (some ⟨"T", "D"⟩)) "hello" ⟨"T", "D"⟩).1 rfl,
   (CreateTitleAndDescription_passthrough
      (fun _ => .ok none) "hello" ⟨"T", "D"⟩).2 rfl⟩

/-- **C4**: `ConvertToObjects` embeds the requested slide count unmodified
in its prompt; the count defaults to 10 when omitted; and a completion
whose parsed payload holds an `arrayOfObjects` of the requested length is
returned exactly, unmodified and in order. -/
theorem ConvertToObjects_spec
    (llm : ChatRequest → Except Unit (Option ArrayOfObjectsPayload))
    (text : String) (slideCount : Nat) (objs : List SlideContent) :
    (∃ pre post, convertPrompt text slideCount =
        pre ++ toString slideCount ++ post) ∧
    ConvertToObjectsDefault llm text = ConvertToObjects llm text 10 ∧
    (llm (convertRequest text slideCount) = .ok (some ⟨objs⟩) →
      objs.length = slideCount →
      ConvertToObjects llm text slideCount = .ok (some objs)) := by
  refine ⟨?_, rfl, ?_⟩
  · simp only [convertPrompt]
    exact append_contains_mid _ _ _ _ _
  · intro h _
    simp [ConvertToObjects, h]

/-- Witness for `ConvertToObjects_spec`: a concrete text, slide count 2,
and an oracle returning a 2-element payload. -/
theorem ConvertToObjects_spec_witness :
    ConvertToObjects
        (fun _ => .ok (some ⟨[⟨"a", ["x"]⟩, ⟨"b", ["y"]⟩]⟩)) "t" 2 =
      .ok (some [⟨"a", ["x"]⟩, ⟨"b", ["y"]⟩]) :=
  (ConvertToObjects_spec
      (fun _ => .ok (some ⟨[⟨"a", ["x"]⟩, ⟨"b", ["y"]⟩]⟩)) "t" 2
      [⟨"a", ["x"]⟩, ⟨"b", ["y"]⟩]).2.2 rfl rfl

/-- `true` exactly on the value `Except.ok none`, the embedding of a
JavaScript function returning `null` without error. -/
def isNullResult {ε α : Type} : Except ε (Option α) → Bool
  | .ok none => true
  | _ => false

/-- **C9**: although their declared return types admit `null`,
`parseXMLContent` and `ConvertToObjects` never produce it: on every input
each either errors or returns an array (`Except.ok (some _)`). -/
theorem parse_and_convert_never_null (fetched : Except Unit XMLNode)
    (llm : ChatRequest → Except Unit (Option ArrayOfObjectsPayload))
    (text : String) (slideCount : Nat) :
    isNullResult (parseXMLContent fetched) = false ∧
    isNullResult (ConvertToObjects llm text slideCount) = false := by
  constructor
  · cases fetched <;> simp [parseXMLContent, isNullResult]
  · cases h : llm (convertRequest text slideCount) with
    | error e => simp [ConvertToObjects, h, isNullResult]
    | ok p => cases p <;> simp [ConvertToObjects, h, isNullResult]

/-- A coordinate value in a `pptxgenjs` text-box option: either a number
(inches) or a percentage string such as `"40%"`. -/
inductive Coord where
  | num : ℚ → Coord
  | pct : String → Coord
deriving DecidableEq, Repr

/-- A text block added with `slide.addText` together with its options as
set in `actions.ts` (options the source leaves unset keep the library
defaults `bold := false`, `bullet := false`). -/
structure TextBox where
  text : String
  x : Coord
  y : Coord
  w : Coord
  h : Coord
  fontSize : Nat
  bold : Bool
  color : String
  align : String
  fontFace : String
  bullet : Bool
deriving DecidableEq, Repr

/-- A slide: its background color when set, and its text blocks in the
order they were added. -/
structure Slide where
  background : Option String
  texts : List TextBox
deriving DecidableEq, Repr

/-- The title slide built by `CreatePowerpointFromArrayOfObjects`: white
background, centered title, centered description. -/
def titleSlide (td : TitleDescription) : Slide :=
  { background := some "#ffffff"
    texts :=
      [{ text := td.title, x := .num 0, y := .pct "40%", w := .pct "100%"
         h := .num 1, fontSize := 33, bold := true, color := "003366"
         align := "center", fontFace := "Helvetica", bullet := false },
       { text := td.description, x := .num 0, y := .pct "58%"
         w := .pct "100%", h := .num 0.75, fontSize := 18, bold := false
         color := "888888", align := "center", fontFace := "Helvetica"
         bullet := false }] }

/-- The bulleted text block for content string `bullet` at position
`index` on a content slide: `y = 1.8 + index * 1`. -/
def bulletBox (bullet : String) (index : Nat) : TextBox :=
  { text := bullet, x := .num 1, y := .num (1.8 + (index : ℚ) * 1)
    w := .num 8, h := .num 0.75, fontSize := 15, bold := false
    color := "333333", align := "left", fontFace := "Arial"
    bullet := true }

/-- `content.forEach((bullet, index) => ...)` starting at index `k`. -/
def bulletBoxesFrom : Nat → List String → List TextBox
  | _, [] => []
  | k, bullet :: rest => bulletBox bullet k :: bulletBoxesFrom (k + 1) rest

/-- All bulleted text blocks of a content slide, indices starting at 0. -/
def bulletBoxes (content : List String) : List TextBox :=
  bulletBoxesFrom 0 content

/-- One content slide: a centered heading followed by one bulleted block
per content string. -/
def contentSlide (sc : SlideContent) : Slide :=
  { background := none
    texts :=
      { text := sc.title, x := .num 0.5, y := .num 0.5, w := .num 8.5
        h := .num 1, fontSize := 32, bold := true, color := "003366"
        align := "center", fontFace := "Arial", bullet := false } ::
        bulletBoxes sc.content }

/-- The deck built before the `try` block: the title slide followed by one
content slide per `SlideContent` entry, in input order. -/
def buildDeck (td : TitleDescription) (slides : List SlideContent) :
    List Slide :=
  titleSlide td :: slides.map contentSlide

/-- `CreatePowerpointFromArrayOfObjects` from `actions.ts`.  `uuid` is the
value produced by `randomUUID()` and `writeResult` the outcome of
`pptx.writeFile`.  The first component is the deck handed to the library;
the second is the returned `{ fileName, filePath }` (with
`filePath = path.join("/tmp", fileName)`), or the generic error when the
write fails. -/
def CreatePowerpointFromArrayOfObjects (td : TitleDescription)
    (slides : List SlideContent) (userId : String) (uuid : String)
    (writeResult : Except Unit Unit) :
    List Slide × Except String PptxFileResult :=
  let deck := buildDeck td slides
  let fileName := "presentation-" ++ uuid ++ "-userId=" ++ userId ++ ".pptx"
  let filePath := "/tmp/" ++ fileName
  match writeResult with
  | .error _ => (deck, .error "Failed to create Powerpoint presentation")
  | .ok _ => (deck, .ok { fileName := fileName, filePath := filePath })

/-- **C6**: for every title/description, slide list of length `M` and user
identifier, the renderer's deck has exactly `M + 1` slides — the title
slide followed by one content slide per entry in input order — and on a
successful write it returns the file name
`presentation-<uuid>-userId=<userId>.pptx` with path under `/tmp`, both
containing the user identifier as a substring. -/
theorem CreatePowerpointFromArrayOfObjects_spec (td : TitleDescription)
    (slides : List SlideContent) (userId uuid : String) :
    (∀ wr, (CreatePowerpointFromArrayOfObjects td slides userId uuid
        wr).1.length = slides.length + 1) ∧
    (∀ wr, (CreatePowerpointFromArrayOfObjects td slides userId uuid
        wr).1 = titleSlide td :: slides.map contentSlide) ∧
    (CreatePowerpointFromArrayOfObjects td slides userId uuid
        (.ok ())).2 =
      .ok { fileName :=
              "presentation-" ++ uuid ++ "-userId=" ++ userId ++ ".pptx"
            filePath := "/tmp/" ++
              ("presentation-" ++ uuid ++ "-userId=" ++ userId ++
                ".pptx") } ∧
    (∃ pre post,
      "presentation-" ++ uuid ++ "-userId=" ++ userId ++ ".pptx" =
        pre ++ userId ++ post) ∧
    ∃ pre post,
      "/tmp/" ++
          ("presentation-" ++ uuid ++ "-userId=" ++ userId ++ ".pptx") =
        pre ++ userId ++ post := by
  refine ⟨?_, ?_, ?_, ⟨"presentation-" ++ uuid ++ "-userId=", ".pptx",
      rfl⟩, ⟨"/tmp/" ++ ("presentation-" ++ uuid ++ "-userId="), ".pptx",
      by simp [String.append_assoc]⟩⟩
  · intro wr
    cases wr <;> simp [CreatePowerpointFromArrayOfObjects, buildDeck]
  · intro wr
    cases wr <;> rfl
  · rfl

theorem bulletBoxesFrom_getElem? (content : List String) :
    ∀ k i : Nat, (bulletBoxesFrom k content)[i]? =
      (content[i]?).map fun s => bulletBox s (k + i) := by
  induction content with
  | nil => intro k i; simp [bulletBoxesFrom]
  | cons b rest ih =>
      intro k i
      cases i with
      | zero => simp [bulletBoxesFrom]
      | succ j =>
          simp only [bulletBoxesFrom, List.getElem?_cons_succ,
            ih (k + 1) j, show k + 1 + j = k + (j + 1) from by omega]

/-- **C8**: on every content slide, the bullet block at index `i` (text
block `i + 1`, after the heading) sits at `y = 1.8 + i * 1`, and the next
bullet, when present, sits exactly `1` below it. -/
theorem contentSlide_bullets_fixed_offset (sc : SlideContent) (i : Nat)
    (b : TextBox) (h : (contentSlide sc).texts[i + 1]? = some b) :
    b.y = Coord.num (1.8 + (i : ℚ) * 1) ∧
    ∀ b', (contentSlide sc).texts[i + 1 + 1]? = some b' →
      b'.y = Coord.num (1.8 + (i : ℚ) * 1 + 1) := by
  have hget : ∀ j : Nat, (contentSlide sc).texts[j + 1]? =
      (sc.content[j]?).map fun s => bulletBox s j := by
    intro j
    simpa [contentSlide, bulletBoxes] using
      bulletBoxesFrom_getElem? sc.content 0 j
  constructor
  · rw [hget i] at h
    rcases Option.map_eq_some'.mp h with ⟨s, _, hb⟩
    rw [← hb]
    rfl
  · intro b' h'
    rw [hget (i + 1)] at h'
    rcases Option.map_eq_some'.mp h' with ⟨s, _, hb⟩
    rw [← hb]
    simp [bulletBox]
    ring

/-- Witness for `contentSlide_bullets_fixed_offset` on a concrete content
slide with two bullets, at bullet index 0. -/
theorem contentSlide_bullets_fixed_offset_witness :
    (contentSlide ⟨"s", ["b0", "b1"]⟩).texts[0 + 1]? =
      some (bulletBox "b0" 0) ∧
    (bulletBox "b0" 0).y = Coord.num (1.8 + (0 : ℚ) * 1) ∧
    (bulletBox "b1" 1).y = Coord.num (1.8 + (0 : ℚ) * 1 + 1) :=
  ⟨rfl,
   (contentSlide_bullets_fixed_offset ⟨"s", ["b0", "b1"]⟩ 0
      (bulletBox "b0" 0) rfl).1,
   (contentSlide_bullets_fixed_offset ⟨"s", ["b0", "b1"]⟩ 0
      (bulletBox "b0" 0) rfl).2 (bulletBox "b1" 1) rfl⟩

/-- **C7**: every underlying failure surfaces as the failing component's
single generic message — the metadata fetcher, the subtitle parser, both
generators (on transport failure and on a missing parsed payload) and the
renderer each produce their own fixed message, and the five messages are
pairwise distinct, so no stage ever reports another stage's error. -/
theorem component_errors_generic_and_distinct
    (transcript text userId uuid : String) (slideCount : Nat)
    (td : TitleDescription) (slides : List SlideContent) :
    GetVideoLengthAndSubtitles (.error ()) =
      .error "Failed to get video length and subtitles" ∧
    parseXMLContent (.error ()) = .error "Failed to parse XML content" ∧
    CreateTitleAndDescription (fun _ => .error ()) transcript =
      .error "Failed to generate title and description" ∧
    CreateTitleAndDescription (fun _ => .ok none) transcript =
      .error "Failed to generate title and description" ∧
    ConvertToObjects (fun _ => .error ()) text slideCount =
      .error "Failed to convert text to objects" ∧
    ConvertToObjects (fun _ => .ok none) text slideCount =
      .error "Failed to convert text to objects" ∧
    (CreatePowerpointFromArrayOfObjects td slides userId uuid
        (.error ())).2 =
      .error "Failed to create Powerpoint presentation" ∧
    List.Pairwise (fun a b => a ≠ b)
      ["Failed to get video length and subtitles",
       "Failed to parse XML content",
       "Failed to generate title and description",
       "Failed to convert text to objects",
       "Failed to create Powerpoint presentation"] :=
  ⟨rfl, rfl, rfl, rfl, rfl, rfl, rfl, by decide⟩

/-- **C10**: the exported pipeline entry point `CreatePowerpoint` is a
stub: for every video identifier it performs no pipeline step (empty
trace) and returns `undefined` (`none`). -/
theorem CreatePowerpoint_is_stub (videoId : String) :
    CreatePowerpoint videoId = ([], none) :=
  rfl
